import Mathlib

/-!
Shallow embedding of `src/main.py` (ligamagic cart exporter).

The program reads a cart HTML snapshot, extracts one record per cart-line
container, classifies free-text description fragments into
language/condition/extras/edition buckets, parses locale-formatted prices,
and writes the records to a spreadsheet.

Modelling conventions:
  * Python floats are modelled as `ℚ` (all constants in play are exactly
    representable decimals).
  * BeautifulSoup nodes are modelled by the fields the program reads:
    `select_one` results are `Option Tag`, attribute dictionaries are
    association lists (a missing key models the `KeyError`).
  * Exceptions caught at the `extract_item_data` boundary are modelled by
    the function returning `none`.
  * `sys.exit(1)` is modelled by a distinguished `RunOutcome` constructor
    carrying the exit code; a normal return of `process_html_to_excel`
    means the process ends with completion signal 0.
-/

/-- Python substring prefix test on character lists. -/
def isPrefixOfB : List Char → List Char → Bool
  | [], _ => true
  | _ :: _, [] => false
  | a :: as, b :: bs => a == b && isPrefixOfB as bs

/-- Python `needle in hay` substring containment on character lists. -/
def containsSub : List Char → List Char → Bool
  | [], needle => needle.isEmpty
  | c :: t, needle => isPrefixOfB needle (c :: t) || containsSub t needle

/-- Python `", ".join(xs)`-style joining. -/
def joinWith (sep : String) : List String → String
  | [] => ""
  | [x] => x
  | x :: y :: xs => x ++ sep ++ joinWith sep (y :: xs)

/-- Helper of `clean_text`: Python `str.split()` (split on whitespace runs,
dropping empty pieces), on character lists; `cur` is the reversed current word. -/
def wordsAux : List Char → List Char → List (List Char)
  | [], cur => if cur.isEmpty then [] else [cur.reverse]
  | c :: rest, cur =>
    if c.isWhitespace then
      if cur.isEmpty then wordsAux rest [] else cur.reverse :: wordsAux rest []
    else wordsAux rest (c :: cur)

/-- `clean_text` of `src/main.py`: `" ".join(text.split())`, with `None ↦ ""`. -/
def clean_text (text : Option String) : String :=
  match text with
  | none => ""
  | some s => joinWith " " ((wordsAux s.toList []).map (fun w => String.mk w))

/-- The cleaning pipeline inside `parse_price`:
`re.sub(r"[^\d,]", "", s)` followed by `.replace(",", ".")`. -/
def cleanedPrice (s : String) : List Char :=
  (s.toList.filter (fun c => c.isDigit || c == ',')).map
    (fun c => if c == ',' then '.' else c)

/-- Digit run to natural number. -/
def digitsToNat (ds : List Char) : Nat :=
  ds.foldl (fun n c => 10 * n + (c.toNat - 48)) 0

/-- Python `float(s)` restricted to the alphabet {digits, `.`} that
`parse_price` can produce: valid iff there is at most one dot and at least
one digit; `none` models the `ValueError`. -/
def pyFloat (cs : List Char) : Option ℚ :=
  if cs.all (fun c => c.isDigit || c == '.') &&
      (cs.filter (fun c => c == '.')).length ≤ 1 &&
      cs.any (fun c => c.isDigit) then
    let intPart := cs.takeWhile (fun c => c != '.')
    let fracPart := (cs.dropWhile (fun c => c != '.')).drop 1
    some ((digitsToNat intPart : ℚ) + (digitsToNat fracPart : ℚ) / (10 ^ fracPart.length : ℚ))
  else
    none

/-- `parse_price` of `src/main.py`: empty string short-circuits to `0.0`;
otherwise strip to digits/commas, turn the comma into a dot, and parse,
absorbing the `ValueError` into `0.0`. -/
def parse_price (price_str : String) : ℚ :=
  if price_str.isEmpty then 0
  else
    match pyFloat (cleanedPrice price_str) with
    | some q => q
    | none => 0

/-- Helper of `extract_content_in_parentheses`: interior of the first `(...)`
pair, scanning like `re.search(r"\((.*?)\)", text)`. -/
def firstParenInterior : List Char → Option (List Char)
  | [] => none
  | c :: rest =>
    if c == '(' then
      if rest.contains ')' then some (rest.takeWhile (fun d => d != ')'))
      else firstParenInterior rest
    else firstParenInterior rest

/-- `extract_content_in_parentheses` of `src/main.py`. -/
def extract_content_in_parentheses (text : String) : String :=
  match firstParenInterior text.toList with
  | some inner => String.mk inner
  | none => text

/-- `KEYWORDS["idioma"]` of `src/main.py`. -/
def KEYWORDS_idioma : List String :=
  ["Alemão", "Chinês", "Espanhol", "Francês", "Inglês", "Italiano",
   "Japonês", "Coreano", "Português", "Russo", "Phyrexiano"]

/-- `KEYWORDS["condicao"]` of `src/main.py`. -/
def KEYWORDS_condicao : List String :=
  ["Aberto", "Lacrado", "Novo", "Usado", "Nova", "Usada", "Danificada"]

/-- `KEYWORDS["extras"]` of `src/main.py`. -/
def KEYWORDS_extras : List String :=
  ["Foil", "Promo", "Pre Release"]

/-- Python `any(kw in text for kw in kws)`. -/
def matchesAny (text : String) (kws : List String) : Bool :=
  kws.any (fun kw => containsSub text.toList kw.toList)

/-- Loop state of the description-classification loop in `extract_item_data`. -/
structure ClassState where
  idioma : String
  condicao : String
  extras_list : List String
  remaining : List String
deriving DecidableEq, Repr

/-- One iteration of the classification loop (lines 150-166 of `src/main.py`). -/
def classifyStep (s : ClassState) (text : String) : ClassState :=
  if matchesAny text KEYWORDS_idioma then { s with idioma := text }
  else if matchesAny text KEYWORDS_condicao then
    { s with condicao := extract_content_in_parentheses text }
  else if matchesAny text KEYWORDS_extras then
    { s with extras_list := s.extras_list ++ [text] }
  else { s with remaining := s.remaining ++ [text] }

/-- The classification loop folded over the fragment sequence. -/
def classifyFrags (frags : List String) (s : ClassState) : ClassState :=
  frags.foldl classifyStep s

/-- Initial accumulators of the loop (`idioma = condicao = "N/A"`, empty lists). -/
def initClassState : ClassState :=
  { idioma := "N/A", condicao := "N/A", extras_list := [], remaining := [] }

/-- Final result of the Description Classifier. -/
structure Classification where
  idioma : String
  condicao : String
  extras : String
  expansao : String
deriving DecidableEq, Repr

/-- The classification portion of `extract_item_data`: loop plus post-pass
(join extras with ", " or "N/A"; edition = first unclassified or "N/A"). -/
def classify (frags : List String) : Classification :=
  let s := classifyFrags frags initClassState
  { idioma := s.idioma
    condicao := s.condicao
    extras := if s.extras_list.isEmpty then "N/A" else joinWith ", " s.extras_list
    expansao :=
      match s.remaining with
      | [] => "N/A"
      | e :: _ => e }

/-- Fragment matches a language keyword (so the loop assigns it to `idioma`). -/
def fragIsLang (t : String) : Bool :=
  matchesAny t KEYWORDS_idioma

/-- Fragment falls through to the condition branch of the loop. -/
def fragIsCond (t : String) : Bool :=
  !matchesAny t KEYWORDS_idioma && matchesAny t KEYWORDS_condicao

/-- Fragment falls through to the extras branch of the loop. -/
def fragIsExtra (t : String) : Bool :=
  !matchesAny t KEYWORDS_idioma && !matchesAny t KEYWORDS_condicao &&
    matchesAny t KEYWORDS_extras

/-- Fragment matches no keyword list: goes to the unclassified accumulator. -/
def fragIsUncl (t : String) : Bool :=
  !matchesAny t KEYWORDS_idioma && !matchesAny t KEYWORDS_condicao &&
    !matchesAny t KEYWORDS_extras

/-- A cell of the output row: the value types occurring in `CardItem.to_dict`. -/
inductive CellValue where
  | str (s : String)
  | int (n : Int)
  | num (q : ℚ)
deriving DecidableEq, Repr

/-- The `CardItem` dataclass of `src/main.py`. `preco_total` is not a field:
the source defines it as a read-only `@property`, modelled below as a
function of the record. -/
structure CardItem where
  nome_pt : String
  nome_en : String
  expansao : String
  idioma : String
  condicao : String
  extras : String
  link : String
  quantidade : Int
  preco_unitario : ℚ
deriving DecidableEq, Repr

/-- `CardItem.preco_total`: the derived total, recomputed from the stored
`quantidade` and `preco_unitario` on every read. -/
def CardItem.preco_total (c : CardItem) : ℚ :=
  (c.quantidade : ℚ) * c.preco_unitario

/-- `CardItem.to_dict`: the ordered header/value association handed to the
spreadsheet writer. -/
def CardItem.to_dict (c : CardItem) : List (String × CellValue) :=
  [("Nome (Português)", CellValue.str c.nome_pt),
   ("Nome (Inglês)", CellValue.str c.nome_en),
   ("Expansão", CellValue.str c.expansao),
   ("Idioma", CellValue.str c.idioma),
   ("Condição", CellValue.str c.condicao),
   ("Extras", CellValue.str c.extras),
   ("Quantidade", CellValue.int c.quantidade),
   ("Preço Unitário", CellValue.num c.preco_unitario),
   ("Preço Total", CellValue.num c.preco_total),
   ("Link", CellValue.str c.link)]

/-- A DOM tag as the program reads it: an attribute dictionary and its text.
`tag["attr"]` on a missing key raises `KeyError`, modelled by `List.lookup`
returning `none`. -/
structure Tag where
  attrs : List (String × String)
  text : String
deriving DecidableEq, Repr

/-- One cart-line container node, reduced to the selector reads
`extract_item_data` performs: each `select_one` result is an `Option Tag`,
and `select(descriptions)` yields the list of description texts. -/
structure ItemNode where
  link_tag : Option Tag
  name_pt_tag : Option Tag
  name_en_tag : Option Tag
  price_tag : Option Tag
  qty_tag : Option Tag
  descriptions : List String
deriving DecidableEq, Repr

/-- Python `int(s)`: strip whitespace, optional sign, a nonempty digit run;
`none` models the `ValueError`. (Python also accepts underscores between
digits and non-ASCII digits; no input in this development uses them.) -/
def pyInt (s : String) : Option Int :=
  let t := ((s.toList.dropWhile Char.isWhitespace).reverse.dropWhile
    Char.isWhitespace).reverse
  match t with
  | [] => none
  | '+' :: ds =>
    if !ds.isEmpty && ds.all Char.isDigit then some (digitsToNat ds : Int) else none
  | '-' :: ds =>
    if !ds.isEmpty && ds.all Char.isDigit then some (-(digitsToNat ds : Int)) else none
  | ds =>
    if ds.all Char.isDigit then some (digitsToNat ds : Int) else none

/-- `int(qty_tag["value"])`: a missing `value` attribute (`KeyError`) or a
malformed digit string (`ValueError`) both raise, hence `none`. -/
def qtyParse (qty_tag : Tag) : Option Int :=
  (List.lookup "value" qty_tag.attrs).bind pyInt

/-- `extract_item_data` of `src/main.py`. Returns `none` when a required
element is missing (the explicit `if not all(...)` check) and when any
exception is raised inside the `try` block (`KeyError` on `href`,
`ValueError`/`KeyError` on the quantity); the `except` clause logs a warning
and returns `None`, so no exception escapes this boundary. -/
def extract_item_data (n : ItemNode) : Option CardItem :=
  match n.link_tag, n.name_pt_tag, n.qty_tag with
  | some link_tag, some name_pt_tag, some qty_tag =>
    match List.lookup "href" link_tag.attrs with
    | none => none
    | some link =>
      let nome_pt := clean_text (some name_pt_tag.text)
      let nome_en :=
        match n.name_en_tag with
        | some t => clean_text (some t.text)
        | none => ""
      let price_text :=
        match n.price_tag with
        | some t => clean_text (some t.text)
        | none => "0"
      let preco := parse_price price_text
      match qtyParse qty_tag with
      | none => none
      | some quantidade =>
        let cls := classify (n.descriptions.map (fun d => clean_text (some d)))
        some { nome_pt := nome_pt
               nome_en := nome_en
               expansao := cls.expansao
               idioma := cls.idioma
               condicao := cls.condicao
               extras := cls.extras
               link := link
               quantidade := quantidade
               preco_unitario := preco }
  | _, _, _ => none

/-- Banker's (half-to-even) rounding to 2 decimal places, as `pandas.round(2)`
applies to the two price columns. -/
def round2 (x : ℚ) : ℚ :=
  let y := x * 100
  let f : ℤ := ⌊y⌋
  let r := y - (f : ℚ)
  let n : ℤ :=
    if r < 1 / 2 then f
    else if 1 / 2 < r then f + 1
    else if f % 2 = 0 then f else f + 1
  (n : ℚ) / 100

/-- The per-column rounding `df["Preço Unitário"].round(2)` /
`df["Preço Total"].round(2)` applied to one output row. -/
def roundRow (row : List (String × CellValue)) : List (String × CellValue) :=
  row.map (fun cell =>
    if cell.1 = "Preço Unitário" || cell.1 = "Preço Total" then
      match cell.2 with
      | CellValue.num q => (cell.1, CellValue.num (round2 q))
      | v => (cell.1, v)
    else cell)

/-- Observable outcome of one `process_html_to_excel` run. -/
inductive RunOutcome where
  | fatalExit (code : Nat)
  | noItemsFound
  | noDataExtracted
  | saved (rows : List (List (String × CellValue)))
  | writeFailed
deriving DecidableEq, Repr

/-- `process_html_to_excel` of `src/main.py`. `input_exists` models
`input_file.exists()` (failure calls `sys.exit(1)`); `items_html` is the
container-selector query result; `write_ok` models whether the
`DataFrame`/`to_excel` block raises (the `except` clause prints the cause and
the function returns normally). -/
def process_html_to_excel (input_exists : Bool) (items_html : List ItemNode)
    (write_ok : Bool) : RunOutcome :=
  if !input_exists then RunOutcome.fatalExit 1
  else if items_html.isEmpty then RunOutcome.noItemsFound
  else
    let extracted_items := (items_html.filterMap extract_item_data).map CardItem.to_dict
    if extracted_items.isEmpty then RunOutcome.noDataExtracted
    else
      let rows := extracted_items.map roundRow
      if write_ok then RunOutcome.saved rows else RunOutcome.writeFailed

/-- Completion signal of the whole process: `sys.exit(1)` is the only
non-zero exit; every normal return of `process_html_to_excel` lets
`__main__` finish with code 0. -/
def runExitCode : RunOutcome → Nat
  | RunOutcome.fatalExit code => code
  | _ => 0

/-- Whether the run produced an output artifact (`to_excel` completed). -/
def producesArtifact : RunOutcome → Bool
  | RunOutcome.saved _ => true
  | _ => false

/-- A fully well-formed cart-line node (used to instantiate theorems). -/
def goodNode : ItemNode :=
  { link_tag := some { attrs := [("href", "https://example.com/card")], text := "Sol Ring" }
    name_pt_tag := some { attrs := [], text := "Anel Solar" }
    name_en_tag := some { attrs := [], text := "Sol Ring" }
    price_tag := some { attrs := [], text := "R$ 10,00" }
    qty_tag := some { attrs := [("value", "2")], text := "" }
    descriptions := ["Inglês", "Kaladesh"] }

/-- A cart-line node whose quantity element is missing. -/
def noQtyNode : ItemNode :=
  { link_tag := some { attrs := [("href", "https://example.com/card")], text := "x" }
    name_pt_tag := some { attrs := [], text := "Carta" }
    name_en_tag := none
    price_tag := none
    qty_tag := none
    descriptions := [] }

/-- A cart-line node whose link element is missing. -/
def noLinkNode : ItemNode :=
  { link_tag := none
    name_pt_tag := some { attrs := [], text := "Carta" }
    name_en_tag := none
    price_tag := none
    qty_tag := some { attrs := [("value", "1")], text := "" }
    descriptions := [] }

/-- A node whose quantity element exists but whose `value` attribute is not
a parseable integer. -/
def badQtyValueNode : ItemNode :=
  { link_tag := some { attrs := [("href", "https://example.com/card")], text := "x" }
    name_pt_tag := some { attrs := [], text := "Carta" }
    name_en_tag := none
    price_tag := none
    qty_tag := some { attrs := [("value", "two")], text := "" }
    descriptions := [] }

/-- A well-formed node whose price has four decimal digits (`1.2345` after
parsing), so that the derived total is not equal to its 2-decimal rounding. -/
def fourDecimalsNode : ItemNode :=
  { link_tag := some { attrs := [("href", "https://example.com/card")], text := "x" }
    name_pt_tag := some { attrs := [], text := "Carta" }
    name_en_tag := none
    price_tag := some { attrs := [], text := "R$ 1,2345" }
    qty_tag := some { attrs := [("value", "1")], text := "" }
    descriptions := [] }

/-- A well-formed node whose single description fragment is a condition
keyword followed by empty parentheses. -/
def emptyParenNode : ItemNode :=
  { link_tag := some { attrs := [("href", "https://example.com/card")], text := "x" }
    name_pt_tag := some { attrs := [], text := "Carta" }
    name_en_tag := none
    price_tag := none
    qty_tag := some { attrs := [("value", "1")], text := "" }
    descriptions := ["Lacrado ()"] }

/-- A concrete record with a two-decimal unit price (`2.50`), for
instantiating the derived-total theorems. -/
def twoDecimalItem : CardItem :=
  { nome_pt := "Carta"
    nome_en := ""
    expansao := "N/A"
    idioma := "N/A"
    condicao := "N/A"
    extras := "N/A"
    link := "https://example.com/card"
    quantidade := 3
    preco_unitario := 5 / 2 }

/-- A minimal well-formed node: no price element, no descriptions. -/
def simpleNode : ItemNode :=
  { link_tag := some { attrs := [("href", "https://example.com/card")], text := "x" }
    name_pt_tag := some { attrs := [], text := "Carta" }
    name_en_tag := none
    price_tag := none
    qty_tag := some { attrs := [("value", "1")], text := "" }
    descriptions := [] }

/-- The record `extract_item_data` constructs from `simpleNode`. -/
def simpleItem : CardItem :=
  { nome_pt := "Carta"
    nome_en := ""
    expansao := "N/A"
    idioma := "N/A"
    condicao := "N/A"
    extras := "N/A"
    link := "https://example.com/card"
    quantidade := 1
    preco_unitario := parse_price "0" }

/-- C1: on the fragment sequence `["Inglês", "Lacrado (NM)", "Foil",
"Kaladesh"]` the classifier assigns language `"Inglês"`, condition `"NM"`
(the parenthetical interior of `"Lacrado (NM)"`), extras `"Foil"`, and
edition `"Kaladesh"`, each fragment classified independently with the
first matching branch (language, then condition, then extras) winning. -/
theorem classifier_priority_scenario :
    classify ["Inglês", "Lacrado (NM)", "Foil", "Kaladesh"] =
      { idioma := "Inglês", condicao := "NM", extras := "Foil",
        expansao := "Kaladesh" } := by
  decide

/-- C2: `parse_price` maps `""` and `"garbage"` to `0.0`, well-formed
Brazilian-locale prices to their numeric value, and any input whose cleaned
form fails to parse to `0.0` — the parse error is absorbed, never
propagated (the function is total). -/
theorem parse_price_contract :
    parse_price "" = 0
    ∧ parse_price "garbage" = 0
    ∧ parse_price "R$ 10,00" = 10.00
    ∧ parse_price "R$ 1.250,50" = 1250.50
    ∧ ∀ s : String, pyFloat (cleanedPrice s) = none → parse_price s = 0 := by
  refine ⟨by decide, by decide, ?_, ?_, ?_⟩
  · have hc : cleanedPrice "R$ 10,00" = ['1', '0', '.', '0', '0'] := by decide
    have hp : pyFloat ['1', '0', '.', '0', '0'] =
        some ((digitsToNat ['1', '0'] : ℚ) +
          (digitsToNat ['0', '0'] : ℚ) / (10 ^ 2 : ℚ)) := rfl
    have h1 : digitsToNat ['1', '0'] = 10 := by decide
    have h2 : digitsToNat ['0', '0'] = 0 := by decide
    rw [h1, h2] at hp
    have hne : ("R$ 10,00" : String).isEmpty = false := by decide
    unfold parse_price
    rw [hne, hc, hp]
    norm_num
  · have hc : cleanedPrice "R$ 1.250,50" = ['1', '2', '5', '0', '.', '5', '0'] := by decide
    have hp : pyFloat ['1', '2', '5', '0', '.', '5', '0'] =
        some ((digitsToNat ['1', '2', '5', '0'] : ℚ) +
          (digitsToNat ['5', '0'] : ℚ) / (10 ^ 2 : ℚ)) := rfl
    have h1 : digitsToNat ['1', '2', '5', '0'] = 1250 := by decide
    have h2 : digitsToNat ['5', '0'] = 50 := by decide
    rw [h1, h2] at hp
    have hne : ("R$ 1.250,50" : String).isEmpty = false := by decide
    unfold parse_price
    rw [hne, hc, hp]
    norm_num
  · intro s h
    cases hs : s.isEmpty
    · simp [parse_price, hs, h]
    · simp [parse_price, hs]

/-- Witness for C2: the cleaned form of `"abc"` fails to parse, and
`parse_price` returns `0.0` on it. -/
theorem parse_price_contract_witness :
    pyFloat (cleanedPrice "abc") = none ∧ parse_price "abc" = 0 :=
  ⟨by decide, parse_price_contract.2.2.2.2 "abc" (by decide)⟩

/-- C5: the derived total of every `CardItem` — read directly, read through
`to_dict`, or read on a record built by `extract_item_data` — is always the
product of the stored `quantidade` and `preco_unitario` fields; `CardItem`
has no stored total field to mutate. -/
theorem derived_total_invariant :
    (∀ c : CardItem, c.preco_total = (c.quantidade : ℚ) * c.preco_unitario)
    ∧ (∀ c : CardItem, List.lookup "Preço Total" c.to_dict
        = some (CellValue.num ((c.quantidade : ℚ) * c.preco_unitario)))
    ∧ (∀ n : ItemNode, ∀ c : CardItem, extract_item_data n = some c →
        c.preco_total = (c.quantidade : ℚ) * c.preco_unitario) :=
  ⟨fun _ => rfl, fun _ => rfl, fun _ _ _ => rfl⟩

/-- Witness for C5: `simpleNode` extracts to `simpleItem`, whose derived
total is the product of its stored fields. -/
theorem derived_total_invariant_witness :
    simpleItem.preco_total = (simpleItem.quantidade : ℚ) * simpleItem.preco_unitario :=
  derived_total_invariant.2.2 simpleNode simpleItem rfl

/-- The extras accumulator of the classification loop ends as its initial
value followed by the fragments that reach and match the extras branch, and
the unclassified accumulator as its initial value followed by the fragments
matching no keyword list, in input order. -/
theorem classifyFrags_extras_remaining (frags : List String) :
    ∀ s : ClassState,
      (classifyFrags frags s).extras_list = s.extras_list ++ frags.filter fragIsExtra
      ∧ (classifyFrags frags s).remaining = s.remaining ++ frags.filter fragIsUncl := by
  induction frags with
  | nil => intro s; simp [classifyFrags]
  | cons t rest ih =>
    intro s
    have hstep : classifyFrags (t :: rest) s = classifyFrags rest (classifyStep s t) := rfl
    rw [hstep]
    obtain ⟨he, hr⟩ := ih (classifyStep s t)
    rw [he, hr]
    cases h1 : matchesAny t KEYWORDS_idioma with
    | true =>
      simp [classifyStep, h1, fragIsExtra, fragIsUncl, List.filter_cons]
    | false =>
      cases h2 : matchesAny t KEYWORDS_condicao with
      | true =>
        simp [classifyStep, h1, h2, fragIsExtra, fragIsUncl, List.filter_cons]
      | false =>
        cases h3 : matchesAny t KEYWORDS_extras with
        | true =>
          simp [classifyStep, h1, h2, h3, fragIsExtra, fragIsUncl, List.filter_cons]
        | false =>
          simp [classifyStep, h1, h2, h3, fragIsExtra, fragIsUncl, List.filter_cons]

/-- The extras output is the matched-extras fragments joined with ", ",
or the sentinel when none matched. -/
theorem classify_extras_eq (frags : List String) :
    (classify frags).extras =
      if (frags.filter fragIsExtra).isEmpty then "N/A"
      else joinWith ", " (frags.filter fragIsExtra) := by
  have he := (classifyFrags_extras_remaining frags initClassState).1
  have hinit : initClassState.extras_list = [] := rfl
  rw [hinit, List.nil_append] at he
  have hx : (classify frags).extras =
      if (classifyFrags frags initClassState).extras_list.isEmpty then "N/A"
      else joinWith ", " (classifyFrags frags initClassState).extras_list := rfl
  rw [hx, he]

/-- The edition output is the first unclassified fragment, or the sentinel
when every fragment was classified. -/
theorem classify_expansao_eq (frags : List String) :
    (classify frags).expansao = ((frags.filter fragIsUncl).head?).getD "N/A" := by
  have hr := (classifyFrags_extras_remaining frags initClassState).2
  have hinit : initClassState.remaining = [] := rfl
  rw [hinit, List.nil_append] at hr
  have hx : (classify frags).expansao =
      match (classifyFrags frags initClassState).remaining with
      | [] => "N/A"
      | e :: _ => e := rfl
  rw [hx, hr]
  cases frags.filter fragIsUncl <;> rfl

/-- Appending a further unclassified fragment after the first one changes no
output of the classifier. -/
theorem classify_append_unclassified (frags : List String) (t : String)
    (ht : fragIsUncl t = true) (hne : frags.filter fragIsUncl ≠ []) :
    classify (frags ++ [t]) = classify frags := by
  have ht' := ht
  simp only [fragIsUncl, Bool.and_eq_true, Bool.not_eq_true'] at ht'
  obtain ⟨⟨ha, hb⟩, hc⟩ := ht'
  have hr := (classifyFrags_extras_remaining frags initClassState).2
  have hinit : initClassState.remaining = [] := rfl
  rw [hinit, List.nil_append] at hr
  have hstep : classifyFrags (frags ++ [t]) initClassState
      = classifyStep (classifyFrags frags initClassState) t := by
    simp [classifyFrags]
  have hstep2 : classifyStep (classifyFrags frags initClassState) t
      = { classifyFrags frags initClassState with
          remaining := (classifyFrags frags initClassState).remaining ++ [t] } := by
    simp [classifyStep, ha, hb, hc]
  unfold classify
  rw [hstep, hstep2]
  cases hfu : frags.filter fragIsUncl with
  | nil => exact absurd hfu hne
  | cons e rest =>
    rw [hfu] at hr
    simp [hr]

/-- C3: for every fragment sequence the extras output equals the
matched-extras fragments joined with ", " (`"N/A"` when none matched); the
edition output equals the first unclassified fragment when one exists —
appending a later unclassified fragment changes no output — and `"N/A"`
otherwise; the empty fragment sequence yields all four sentinels. -/
theorem classifier_post_pass :
    ∀ frags : List String,
      ((classify frags).extras =
        if (frags.filter fragIsExtra).isEmpty then "N/A"
        else joinWith ", " (frags.filter fragIsExtra))
      ∧ ((classify frags).expansao = ((frags.filter fragIsUncl).head?).getD "N/A")
      ∧ (∀ t, fragIsUncl t = true → frags.filter fragIsUncl ≠ [] →
          classify (frags ++ [t]) = classify frags)
      ∧ classify [] =
          { idioma := "N/A", condicao := "N/A", extras := "N/A", expansao := "N/A" } :=
  fun frags =>
    ⟨classify_extras_eq frags, classify_expansao_eq frags,
     fun t ht hne => classify_append_unclassified frags t ht hne, rfl⟩

/-- Witness for C3: `"Dominaria"` is unclassified, `["Kaladesh", "Foil"]`
already has an unclassified fragment, and appending `"Dominaria"` leaves the
classification unchanged. -/
theorem classifier_post_pass_witness :
    fragIsUncl "Dominaria" = true
    ∧ ["Kaladesh", "Foil"].filter fragIsUncl ≠ []
    ∧ classify (["Kaladesh", "Foil"] ++ ["Dominaria"]) = classify ["Kaladesh", "Foil"] :=
  ⟨by decide, by decide,
   (classifier_post_pass ["Kaladesh", "Foil"]).2.2.1 "Dominaria" (by decide) (by decide)⟩

/-- C10: the fragment `"Lacrado ()"` matches a condition keyword and its
first parenthetical interior is empty, so the classifier assigns
`condition = ""`; the empty string (distinct from the sentinel `"N/A"`)
then reaches the record field handed to the output stage. -/
theorem empty_parenthetical_condition :
    (classify ["Lacrado ()"]).condicao = ""
    ∧ (extract_item_data emptyParenNode).map
        (fun c => List.lookup "Condição" c.to_dict) = some (some (CellValue.str ""))
    ∧ ("" : String) ≠ "N/A" := by
  decide

/-- C4: a cart-line node missing any required sub-field (link, primary name,
quantity) extracts to "no item"; a missing `href` attribute or an
unparseable quantity value (the exceptions caught at the boundary) also
yield "no item"; and a node extracting to "no item" simply drops out of the
accumulated batch, leaving the records of the surrounding nodes intact. -/
theorem per_item_error_isolation :
    (∀ n : ItemNode, n.link_tag = none ∨ n.name_pt_tag = none ∨ n.qty_tag = none →
      extract_item_data n = none)
    ∧ (∀ n : ItemNode, ∀ lt : Tag, n.link_tag = some lt →
        List.lookup "href" lt.attrs = none → extract_item_data n = none)
    ∧ (∀ n : ItemNode, ∀ qt : Tag, n.qty_tag = some qt → qtyParse qt = none →
        extract_item_data n = none)
    ∧ (∀ (pre post : List ItemNode) (bad : ItemNode), extract_item_data bad = none →
        (pre ++ bad :: post).filterMap extract_item_data
          = pre.filterMap extract_item_data ++ post.filterMap extract_item_data) := by
  refine ⟨?_, ?_, ?_, ?_⟩
  · rintro ⟨lt, npt, net, prt, qt, ds⟩ h
    rcases h with h | h | h
    · cases h; cases npt <;> cases qt <;> rfl
    · cases h; cases lt <;> cases qt <;> rfl
    · cases h; cases lt <;> cases npt <;> rfl
  · rintro ⟨lt, npt, net, prt, qt, ds⟩ lt' hlt hhref
    cases hlt
    cases npt with
    | none => rfl
    | some npt =>
      cases qt with
      | none => rfl
      | some qt => simp [extract_item_data, hhref]
  · rintro ⟨lt, npt, net, prt, qt, ds⟩ qt' hqt hq
    cases hqt
    cases lt with
    | none => rfl
    | some lt =>
      cases npt with
      | none => rfl
      | some npt =>
        cases hl : List.lookup "href" lt.attrs with
        | none => simp [extract_item_data, hl]
        | some link => simp [extract_item_data, hl, hq]
  · intro pre post bad hbad
    rw [List.filterMap_append]
    congr 1
    simp [List.filterMap_cons, hbad]

/-- Witness for C4: a node with no link, and a node whose quantity value is
`"two"`, both extract to "no item", and a "no item" node between two good
nodes leaves their records untouched. -/
theorem per_item_error_isolation_witness :
    extract_item_data noLinkNode = none
    ∧ extract_item_data badQtyValueNode = none
    ∧ ([simpleNode] ++ noLinkNode :: [simpleNode]).filterMap extract_item_data
        = [simpleNode].filterMap extract_item_data ++ [simpleNode].filterMap extract_item_data :=
  ⟨per_item_error_isolation.1 noLinkNode (Or.inl rfl),
   per_item_error_isolation.2.2.1 badQtyValueNode
     { attrs := [("value", "two")], text := "" } rfl (by decide),
   per_item_error_isolation.2.2.2 [simpleNode] [simpleNode] noLinkNode
     (per_item_error_isolation.1 noLinkNode (Or.inl rfl))⟩

/-- C7: with the input file present, zero matched containers end the run in
the "no items found" condition, and a pass in which every line is skipped
ends it in the "no data extracted" condition; both are non-fatal (completion
signal 0) and produce no output artifact. -/
theorem batch_termination_conditions :
    ∀ (items_html : List ItemNode) (write_ok : Bool),
      (items_html = [] →
        process_html_to_excel true items_html write_ok = RunOutcome.noItemsFound
        ∧ producesArtifact (process_html_to_excel true items_html write_ok) = false
        ∧ runExitCode (process_html_to_excel true items_html write_ok) = 0)
      ∧ (items_html ≠ [] → items_html.filterMap extract_item_data = [] →
        process_html_to_excel true items_html write_ok = RunOutcome.noDataExtracted
        ∧ producesArtifact (process_html_to_excel true items_html write_ok) = false
        ∧ runExitCode (process_html_to_excel true items_html write_ok) = 0) := by
  intro items write_ok
  constructor
  · rintro rfl
    exact ⟨rfl, rfl, rfl⟩
  · intro hne hfm
    have h : process_html_to_excel true items write_ok = RunOutcome.noDataExtracted := by
      have hie : items.isEmpty = false := by simpa [List.isEmpty_iff] using hne
      simp [process_html_to_excel, hie, hfm]
    exact ⟨h, by rw [h]; rfl, by rw [h]; rfl⟩

/-- Witness for C7: a one-container document whose only line is missing its
link yields the "no data extracted" termination, with no artifact and
completion signal 0. -/
theorem batch_termination_conditions_witness :
    process_html_to_excel true [noLinkNode] true = RunOutcome.noDataExtracted
    ∧ producesArtifact (process_html_to_excel true [noLinkNode] true) = false
    ∧ runExitCode (process_html_to_excel true [noLinkNode] true) = 0 :=
  (batch_termination_conditions [noLinkNode] true).2 (by decide) (by decide)

/-- C9: whenever a run writes output, the written row sequence is exactly
the order-preserving filter-map of the container sequence: each container's
record (rounded for the two price columns) appears once, in container order,
with skipped containers removed and nothing reordered, duplicated, or
inserted. -/
theorem order_preserving_rows :
    ∀ items_html : List ItemNode,
      items_html ≠ [] → items_html.filterMap extract_item_data ≠ [] →
      process_html_to_excel true items_html true =
        RunOutcome.saved
          (((items_html.filterMap extract_item_data).map CardItem.to_dict).map roundRow) := by
  intro items hne hfm
  have hie : items.isEmpty = false := by simpa [List.isEmpty_iff] using hne
  have hee : ((items.filterMap extract_item_data).map CardItem.to_dict).isEmpty = false := by
    simp [List.isEmpty_iff, hfm]
  simp [process_html_to_excel, hie, hee]

/-- Witness for C9: a successful one-container run saves exactly the
filter-mapped row sequence. -/
theorem order_preserving_rows_witness :
    process_html_to_excel true [simpleNode] true =
      RunOutcome.saved
        ((([simpleNode].filterMap extract_item_data).map CardItem.to_dict).map roundRow) :=
  order_preserving_rows [simpleNode] (by decide) (by decide)

/-- Counterexample to C8 as stated: on a write failure the run does not end
with a non-zero completion signal — the exception is caught, the function
returns normally, and the process completion signal is 0. -/
theorem write_failure_exit_counterexample :
    process_html_to_excel true [simpleNode] false = RunOutcome.writeFailed
    ∧ runExitCode (process_html_to_excel true [simpleNode] false) = 0 := by
  decide

/-- C8 (amended): on output-write failure the run reports the failure
(the distinguished `writeFailed` outcome, printed with its cause), raises no
unhandled fault, produces no artifact, and returns normally — the completion
signal is 0, the same as on success, not non-zero. -/
theorem write_failure_handling_amended :
    ∀ items_html : List ItemNode, items_html ≠ [] →
      items_html.filterMap extract_item_data ≠ [] →
      process_html_to_excel true items_html false = RunOutcome.writeFailed
      ∧ runExitCode (process_html_to_excel true items_html false) = 0
      ∧ producesArtifact (process_html_to_excel true items_html false) = false := by
  intro items hne hfm
  have hie : items.isEmpty = false := by simpa [List.isEmpty_iff] using hne
  have hee : ((items.filterMap extract_item_data).map CardItem.to_dict).isEmpty = false := by
    simp [List.isEmpty_iff, hfm]
  have h : process_html_to_excel true items false = RunOutcome.writeFailed := by
    simp [process_html_to_excel, hie, hee]
  exact ⟨h, by rw [h]; rfl, by rw [h]; rfl⟩

/-- Witness for C8 (amended): a one-container run with a failing writer ends
in `writeFailed`, completion signal 0, no artifact. -/
theorem write_failure_handling_amended_witness :
    process_html_to_excel true [simpleNode] false = RunOutcome.writeFailed
    ∧ runExitCode (process_html_to_excel true [simpleNode] false) = 0
    ∧ producesArtifact (process_html_to_excel true [simpleNode] false) = false :=
  write_failure_handling_amended [simpleNode] (by decide) (by decide)

/-- A rational whose hundredfold is an integer is unchanged by 2-decimal
rounding. -/
theorem round2_eq_self_of_hundredth (x : ℚ) (n : ℤ) (h : x * 100 = (n : ℚ)) :
    round2 x = x := by
  have hx : x = (n : ℚ) / 100 := by
    rw [eq_div_iff (by norm_num : (100 : ℚ) ≠ 0)]
    exact h
  subst hx
  simp only [round2]
  rw [h, Int.floor_intCast, sub_self]
  rw [if_pos (by norm_num : (0 : ℚ) < 1 / 2)]

/-- Counterexample to C6 as stated: the record built from a node whose price
parses to `1.2345` (quantity 1) has `total_price = 1.2345`, while
`round(quantity * unit_price, 2) = 1.23`; they differ by `0.0045`, far
beyond floating-point tolerance. -/
theorem rounded_total_counterexample :
    (extract_item_data fourDecimalsNode).map CardItem.preco_total = some (2469 / 2000)
    ∧ round2 (2469 / 2000 : ℚ) = 123 / 100
    ∧ (2469 / 2000 : ℚ) ≠ 123 / 100
    ∧ (2469 / 2000 : ℚ) - 123 / 100 = 9 / 2000 := by
  have hprice : parse_price "R$ 1,2345" = 2469 / 2000 := by
    have hc : cleanedPrice "R$ 1,2345" = ['1', '.', '2', '3', '4', '5'] := by decide
    have hp : pyFloat ['1', '.', '2', '3', '4', '5'] =
        some ((digitsToNat ['1'] : ℚ) +
          (digitsToNat ['2', '3', '4', '5'] : ℚ) / (10 ^ 4 : ℚ)) := rfl
    have h1 : digitsToNat ['1'] = 1 := by decide
    have h2 : digitsToNat ['2', '3', '4', '5'] = 2345 := by decide
    rw [h1, h2] at hp
    have hne : ("R$ 1,2345" : String).isEmpty = false := by decide
    unfold parse_price
    rw [hne, hc, hp]
    norm_num
  have hmap : (extract_item_data fourDecimalsNode).map CardItem.preco_total
      = some (((1 : ℤ) : ℚ) * parse_price "R$ 1,2345") := rfl
  rw [hprice] at hmap
  refine ⟨?_, ?_, by norm_num, by norm_num⟩
  · rw [hmap]
    norm_num
  · have hy : (2469 / 2000 : ℚ) * 100 = 2469 / 20 := by norm_num
    have hf : ⌊(2469 / 20 : ℚ)⌋ = 123 := by
      rw [Int.floor_eq_iff]
      constructor <;> norm_num
    simp only [round2]
    rw [hy, hf]
    rw [if_pos (by norm_num : (2469 / 20 : ℚ) - ((123 : ℤ) : ℚ) < 1 / 2)]
    norm_num

/-- C6 (amended): every record's total is exactly `quantity * unit_price`,
unrounded; when the unit price has at most two decimal places (every
well-formed currency input), that product is its own 2-decimal rounding, so
`total_price = round(quantity * unit_price, 2)` holds. The 2-decimal
rounding is otherwise applied only to the output columns by the processor,
and `total_price` is never independently settable. -/
theorem derived_total_rounding_amended :
    ∀ c : CardItem, (∃ m : ℤ, c.preco_unitario * 100 = (m : ℚ)) →
      c.preco_total = (c.quantidade : ℚ) * c.preco_unitario
      ∧ c.preco_total = round2 ((c.quantidade : ℚ) * c.preco_unitario) := by
  rintro c ⟨m, hm⟩
  refine ⟨rfl, ?_⟩
  have h : ((c.quantidade : ℚ) * c.preco_unitario) * 100 = ((c.quantidade * m : ℤ) : ℚ) := by
    push_cast
    rw [mul_assoc, hm]
  calc c.preco_total = (c.quantidade : ℚ) * c.preco_unitario := rfl
    _ = round2 ((c.quantidade : ℚ) * c.preco_unitario) :=
        (round2_eq_self_of_hundredth _ _ h).symm

/-- Witness for C6 (amended): a record with unit price `2.50` and quantity 3
has its derived total (`7.50`) fixed by the 2-decimal rounding. -/
theorem derived_total_rounding_amended_witness :
    twoDecimalItem.preco_total
        = (twoDecimalItem.quantidade : ℚ) * twoDecimalItem.preco_unitario
    ∧ twoDecimalItem.preco_total
        = round2 ((twoDecimalItem.quantidade : ℚ) * twoDecimalItem.preco_unitario) :=
  derived_total_rounding_amended twoDecimalItem ⟨250, by norm_num [twoDecimalItem]⟩
